import Mathlib

/-!
Verification development for the resilience and access-control core of the
mcp-gateway repository: the circuit breaker (src/services/circuit_breaker.py),
the dual-window rate limiter (src/services/rate_limiter.py), and the
pre-emptive OAuth2 credential manager (src/services/auth_manager.py).

Modelling conventions used throughout:
- wall-clock timestamps are natural numbers of seconds; a Python
  subtraction of datetimes followed by a comparison is modelled over Int,
  so that negative elapsed times compare exactly as in the source;
- the async locks serialize every operation in the source, so each
  operation is modelled as a pure state-transition function;
- the wrapped operation of a breaker call is modelled by the Bool that
  says whether it succeeded; the token endpoint and the interactive
  OAuth flow are modelled as explicit function parameters.
-/

/-! ## Circuit breaker (src/services/circuit_breaker.py) -/

/-- The CircuitState enum. The OPEN member is called opened because open is
a reserved word in Lean. -/
inductive CircuitState where
  | closed
  | opened
  | halfOpen
deriving DecidableEq, Repr

/-- CircuitBreakerConfig with the source defaults. -/
structure CircuitBreakerConfig where
  failure_threshold : Nat := 5
  recovery_timeout : Nat := 300
  half_open_max_requests : Nat := 3
  success_threshold : Nat := 2
deriving DecidableEq, Repr

/-- CircuitBreakerState with the source defaults. -/
structure CircuitBreakerState where
  state : CircuitState := .closed
  failure_count : Nat := 0
  success_count : Nat := 0
  last_failure_time : Option Nat := none
  half_open_request_count : Nat := 0
deriving DecidableEq, Repr

/-- The outcome of CircuitBreaker.call: rejected models the
(None, "downgraded") early return, succeeded the (result, None) return,
failed the re-raised operation error. -/
inductive CallOutcome where
  | succeeded
  | failed
  | rejected
deriving DecidableEq, Repr

/-- CircuitBreaker._should_attempt_recovery evaluated at time now. -/
def shouldAttemptRecovery (cfg : CircuitBreakerConfig) (now : Nat)
    (s : CircuitBreakerState) : Bool :=
  if s.state ≠ .opened then false
  else
    match s.last_failure_time with
    | none => true
    | some t => decide ((cfg.recovery_timeout : Int) ≤ (now : Int) - (t : Int))

/-- CircuitBreaker._transition_to_open. -/
def transitionToOpen (s : CircuitBreakerState) : CircuitBreakerState :=
  { s with state := .opened, half_open_request_count := 0 }

/-- CircuitBreaker._transition_to_half_open. -/
def transitionToHalfOpen (s : CircuitBreakerState) : CircuitBreakerState :=
  { s with state := .halfOpen, half_open_request_count := 0, success_count := 0 }

/-- CircuitBreaker._transition_to_closed. -/
def transitionToClosed (s : CircuitBreakerState) : CircuitBreakerState :=
  { s with state := .closed, failure_count := 0, success_count := 0,
           half_open_request_count := 0 }

/-- CircuitBreaker._record_success. -/
def recordSuccess (cfg : CircuitBreakerConfig) (s : CircuitBreakerState) :
    CircuitBreakerState :=
  let s1 := { s with failure_count := 0 }
  if s1.state = .halfOpen then
    let s2 := { s1 with success_count := s1.success_count + 1 }
    if cfg.success_threshold ≤ s2.success_count then transitionToClosed s2 else s2
  else s1

/-- CircuitBreaker._record_failure at time now (the source stamps
last_failure_time with datetime.utcnow inside this method). -/
def recordFailure (cfg : CircuitBreakerConfig) (now : Nat)
    (s : CircuitBreakerState) : CircuitBreakerState :=
  let s1 := { s with failure_count := s.failure_count + 1,
                     last_failure_time := some now, success_count := 0 }
  if s1.state = .halfOpen then transitionToOpen s1
  else if cfg.failure_threshold ≤ s1.failure_count then transitionToOpen s1
  else s1

/-- The tail of CircuitBreaker.call once admission succeeded: run the
operation and record its outcome; ok says whether the operation succeeded. -/
def execOp (cfg : CircuitBreakerConfig) (now : Nat) (ok : Bool)
    (s : CircuitBreakerState) : CallOutcome × CircuitBreakerState :=
  if ok then (.succeeded, recordSuccess cfg s)
  else (.failed, recordFailure cfg now s)

/-- CircuitBreaker.call at time now. The source checks the OPEN state
(either transitioning to HALF_OPEN or returning the downgraded sentinel)
and then, in a separate if, applies the HALF_OPEN probe budget before
running the operation. -/
def call (cfg : CircuitBreakerConfig) (now : Nat) (ok : Bool)
    (s0 : CircuitBreakerState) : CallOutcome × CircuitBreakerState :=
  if s0.state = .opened ∧ shouldAttemptRecovery cfg now s0 = false then
    (.rejected, s0)
  else
    let s1 := if s0.state = .opened then transitionToHalfOpen s0 else s0
    if s1.state = .halfOpen then
      if cfg.half_open_max_requests ≤ s1.half_open_request_count then
        (.rejected, s1)
      else
        execOp cfg now ok
          { s1 with half_open_request_count := s1.half_open_request_count + 1 }
    else execOp cfg now ok s1

/-- n consecutive calls whose operation fails, all issued at time t,
starting from the initial (fresh) breaker state. -/
def callsAfterFailures (cfg : CircuitBreakerConfig) (t : Nat) :
    Nat → CircuitBreakerState
  | 0 => {}
  | n + 1 => (call cfg t false (callsAfterFailures cfg t n)).2

/-- Fold a list of (time, operation outcome) calls through the breaker. -/
def iterCalls (cfg : CircuitBreakerConfig) (l : List (Nat × Bool))
    (s : CircuitBreakerState) : CircuitBreakerState :=
  l.foldl (fun s q => (call cfg q.1 q.2 s).2) s

/-- n recorded successes in a row (CircuitBreaker._record_success). -/
def recordSuccesses (cfg : CircuitBreakerConfig) :
    Nat → CircuitBreakerState → CircuitBreakerState
  | 0, s => s
  | n + 1, s => recordSuccesses cfg n (recordSuccess cfg s)

/-- n calls whose operation succeeds, all issued at time t. -/
def succCallsAt (cfg : CircuitBreakerConfig) (t : Nat) :
    Nat → CircuitBreakerState → CircuitBreakerState
  | 0, s => s
  | n + 1, s => succCallsAt cfg t n ((call cfg t true s).2)

/-- The breaker config registered for youtube_upload in BREAKER_CONFIGS:
probe budget 1, success threshold left at the default 2. -/
def ytUploadConfig : CircuitBreakerConfig :=
  { failure_threshold := 3, recovery_timeout := 600, half_open_max_requests := 1 }

/-- The BREAKER_CONFIGS table of the source. -/
def BREAKER_CONFIGS : List (String × CircuitBreakerConfig) :=
  [("youtube_upload", ytUploadConfig),
   ("youtube_analytics", { failure_threshold := 5, recovery_timeout := 300 }),
   ("google_trends", { failure_threshold := 5, recovery_timeout := 300 }),
   ("google_search", { failure_threshold := 10, recovery_timeout := 180 })]

/-! ## Rate limiter (src/services/rate_limiter.py) -/

/-- The RateLimit dataclass. Counts default to 0; the reset timestamps
default to the construction instant (0 in the static table, replaced by
initLimit when the RateLimiter is built). -/
structure RateLimit where
  requests_per_day : Nat
  requests_per_minute : Nat
  current_day_count : Nat := 0
  current_minute_count : Nat := 0
  last_day_reset : Nat := 0
  last_minute_reset : Nat := 0
deriving DecidableEq, Repr

/-- The API_LIMITS table of the source. -/
def API_LIMITS : List (String × RateLimit) :=
  [("trends", { requests_per_day := 1000, requests_per_minute := 60 }),
   ("search", { requests_per_day := 10000, requests_per_minute := 100 }),
   ("youtube_upload", { requests_per_day := 50, requests_per_minute := 5 }),
   ("youtube_analytics", { requests_per_day := 10000, requests_per_minute := 100 }),
   ("knowledge_graph", { requests_per_day := 10000, requests_per_minute := 100 })]

/-- The youtube_upload entry of API_LIMITS, named for concrete
instantiations. -/
def ytUploadPair : String × RateLimit :=
  ("youtube_upload", { requests_per_day := 50, requests_per_minute := 5 })

/-- RateLimiter.__init__ copies an API_LIMITS entry with zero counts and
both reset timestamps set to the current instant t0. -/
def initLimit (L : RateLimit) (t0 : Nat) : RateLimit :=
  { requests_per_day := L.requests_per_day,
    requests_per_minute := L.requests_per_minute,
    current_day_count := 0, current_minute_count := 0,
    last_day_reset := t0, last_minute_reset := t0 }

/-- Result of one acquire on a configured API: ok carries the slept
duration when the minute-window wait was taken (the wait_seconds passed to
asyncio.sleep), exceeded carries the wait_seconds of the raised
RateLimitExceeded. Timedelta arithmetic is over Int, as in the source. -/
inductive AcqOutcome where
  | ok (slept : Option Int)
  | exceeded (wait_seconds : Int)
deriving DecidableEq, Repr

/-- The lazy daily-window roll at the top of RateLimiter.acquire:
reset the day count when strictly more than 24 hours elapsed. -/
def rollDay (L : RateLimit) (now : Nat) : RateLimit :=
  if (now : Int) - (L.last_day_reset : Int) > 86400 then
    { L with current_day_count := 0, last_day_reset := now }
  else L

/-- The lazy minute-window roll of RateLimiter.acquire. -/
def rollMinute (L : RateLimit) (now : Nat) : RateLimit :=
  if (now : Int) - (L.last_minute_reset : Int) > 60 then
    { L with current_minute_count := 0, last_minute_reset := now }
  else L

/-- One RateLimiter.acquire on a single configured RateLimit, entered at
time now. Returns the outcome, the mutated limit, and the time at which
the call returns (acquire only advances time by sleeping; asyncio.sleep
of a non-positive duration returns immediately, hence Int.toNat). -/
def acquireStep (L0 : RateLimit) (now : Nat) : AcqOutcome × RateLimit × Nat :=
  let L := rollMinute (rollDay L0 now) now
  if L.requests_per_day ≤ L.current_day_count then
    (.exceeded ((L.last_day_reset : Int) + 86400 - (now : Int)), L, now)
  else if L.requests_per_minute ≤ L.current_minute_count then
    let wait : Int := (L.last_minute_reset : Int) + 60 - (now : Int)
    let now2 := now + wait.toNat
    let L2 := { L with current_minute_count := 0, last_minute_reset := now2 }
    (.ok (some wait),
     { L2 with current_day_count := L2.current_day_count + 1,
               current_minute_count := L2.current_minute_count + 1 }, now2)
  else
    (.ok none,
     { L with current_day_count := L.current_day_count + 1,
              current_minute_count := L.current_minute_count + 1 }, now)

/-- RateLimiter.acquire on the limiter table: an unknown API name returns
True immediately, without touching any state. -/
def acquire (limits : List (String × RateLimit)) (api : String) (now : Nat) :
    AcqOutcome × List (String × RateLimit) × Nat :=
  match List.lookup api limits with
  | none => (.ok none, limits, now)
  | some L =>
    let r := acquireStep L now
    (r.1, limits.map (fun p => if p.1 = api then (p.1, r.2.1) else p), r.2.2)

/-- RateLimiter.get_remaining on one configured RateLimit: a plain integer
difference, as in the source (Python ints may go negative). -/
def getRemainingOf (L : RateLimit) : Int :=
  (L.requests_per_day : Int) - (L.current_day_count : Int)

/-- RateLimiter.get_remaining: unknown APIs report -1. -/
def getRemaining (limits : List (String × RateLimit)) (api : String) : Int :=
  match List.lookup api limits with
  | none => -1
  | some L => getRemainingOf L

/-- n successive acquires on one configured RateLimit, each entered the
instant the previous one returned. -/
def runAcquires : Nat → RateLimit → Nat → List AcqOutcome × RateLimit × Nat
  | 0, L, now => ([], L, now)
  | n + 1, L, now =>
    let r := runAcquires n L now
    let r2 := acquireStep r.2.1 r.2.2
    (r.1 ++ [r2.1], r2.2.1, r2.2.2)

/-! ## Pre-emptive auth manager (src/services/auth_manager.py) -/

/-- The fields of a google.oauth2.credentials.Credentials object that the
auth manager reads or writes. Expiry is a timestamp in seconds. -/
structure Credentials where
  token : Option String := none
  refresh_token : Option String := none
  token_uri : Option String := none
  client_id : Option String := none
  client_secret : Option String := none
  scopes : Option (List String) := none
  expiry : Option Nat := none
deriving DecidableEq, Repr

/-- Credentials.expired, modelled from the external google-auth library:
true when an expiry is set and it is not in the future. The claims under
verification never reach a branch that reads this. -/
def Credentials.expired (now : Nat) (c : Credentials) : Bool :=
  match c.expiry with
  | none => false
  | some e => decide (e ≤ now)

/-- Credentials.valid, modelled from the external google-auth library:
a token is present and not expired. -/
def Credentials.valid (now : Nat) (c : Credentials) : Bool :=
  c.token.isSome && !(c.expired now)

/-- The JSON record written by PreemptiveAuthManager._save_credentials.
The expiry is stored via isoformat, modelled as the timestamp itself
(fromisoformat of isoformat is the identity). -/
structure TokenData where
  token : Option String
  refresh_token : Option String
  token_uri : Option String
  client_id : Option String
  client_secret : Option String
  scopes : List String
  expiry : Option Nat
deriving DecidableEq, Repr

/-- The token_data dict built by _save_credentials: scopes collapse to []
when None (or already empty, both being falsy in Python). -/
def saveData (c : Credentials) : TokenData :=
  { token := c.token, refresh_token := c.refresh_token,
    token_uri := c.token_uri, client_id := c.client_id,
    client_secret := c.client_secret,
    scopes := match c.scopes with | some l => l | none => [],
    expiry := c.expiry }

/-- The Credentials object rebuilt by _load_credentials from a token
record: every field is read back, the expiry only when present and
non-null. -/
def loadData (d : TokenData) : Credentials :=
  { token := d.token, refresh_token := d.refresh_token,
    token_uri := d.token_uri, client_id := d.client_id,
    client_secret := d.client_secret, scopes := some d.scopes,
    expiry := d.expiry }

/-- SCOPES table of the source. -/
def SCOPES : List (String × List String) :=
  [("youtube",
     ["https://www.googleapis.com/auth/youtube.upload",
      "https://www.googleapis.com/auth/youtube.force-ssl",
      "https://www.googleapis.com/auth/youtubepartner"]),
   ("youtube_analytics", ["https://www.googleapis.com/auth/yt-analytics.readonly"]),
   ("search", ["https://www.googleapis.com/auth/customsearch"]),
   ("knowledge_graph", [])]

/-- PreemptiveAuthManager.PREEMPTIVE_REFRESH_MINUTES. -/
def PREEMPTIVE_REFRESH_MINUTES : Nat := 10

/-- PreemptiveAuthManager._get_token_file_path relative to the
credentials directory. -/
def tokenFilePath (service : String) (channel_id : Option String) : String :=
  "token_" ++ service ++
    (match channel_id with | some c => "_" ++ c | none => "") ++ ".json"

/-- The mutable state of a PreemptiveAuthManager: the two in-memory
caches and the durable token files, each as a lookup function. -/
structure AuthState where
  credentials_cache : String → Option Credentials
  token_expiry_cache : String → Option Nat
  store : String → Option TokenData

/-- PreemptiveAuthManager._save_credentials: write the token record of c
to the file for (service, channel_id). -/
def saveCredentials (st : AuthState) (service : String)
    (channel_id : Option String) (c : Credentials) : AuthState :=
  { st with store := fun k =>
      if k = tokenFilePath service channel_id then some (saveData c) else st.store k }

/-- PreemptiveAuthManager._load_credentials: read back the token record,
if the file exists. -/
def loadCredentials (st : AuthState) (service : String)
    (channel_id : Option String) : Option Credentials :=
  (st.store (tokenFilePath service channel_id)).map loadData

/-- PreemptiveAuthManager._needs_preemptive_refresh: consult the expiry
cache; absent entries never trigger a refresh. -/
def needsPreemptiveRefresh (st : AuthState) (cache_key : String)
    (min_validity_minutes : Nat) (now : Nat) : Bool :=
  match st.token_expiry_cache cache_key with
  | none => false
  | some e => decide ((e : Int) - (now : Int) < (min_validity_minutes : Int) * 60)

/-- PreemptiveAuthManager._needs_preemptive_refresh_for_creds. -/
def needsPreemptiveRefreshForCreds (c : Credentials)
    (min_validity_minutes : Nat) (now : Nat) : Bool :=
  match c.expiry with
  | none => false
  | some e => decide ((e : Int) - (now : Int) < (min_validity_minutes : Int) * 60)

/-- PreemptiveAuthManager._update_expiry_cache: only overwrite when the
credential carries an expiry. -/
def updateExpiryCache (st : AuthState) (cache_key : String)
    (c : Credentials) : AuthState :=
  match c.expiry with
  | some e =>
    { st with token_expiry_cache := fun k =>
        if k = cache_key then some e else st.token_expiry_cache k }
  | none => st

/-- Store c in the credential cache under cache_key and then update the
expiry cache, the order used at every call site in get_credentials. -/
def cacheAndExpiry (st : AuthState) (cache_key : String)
    (c : Credentials) : AuthState :=
  updateExpiryCache
    { st with credentials_cache := fun k =>
        if k = cache_key then some c else st.credentials_cache k }
    cache_key c

/-- PreemptiveAuthManager._refresh_credentials: the token endpoint
(modelled by refreshFn) replaces the credential, which is immediately
persisted. -/
def refreshCredentials (refreshFn : Credentials → Credentials)
    (st : AuthState) (service : String) (channel_id : Option String)
    (c : Credentials) : Credentials × AuthState :=
  let c2 := refreshFn c
  (c2, saveCredentials st service channel_id c2)

/-- Lines 71 to 82 of get_credentials: the load-or-authorize tail reached
when no cached credential short-circuits. Returns the credential, the new
state, and the total number of token refreshes performed during the whole
get_credentials call (refreshes counts those already done before entering
this tail). authFn models the interactive OAuth consent flow. -/
def loadOrAuthorize (refreshFn : Credentials → Credentials)
    (authFn : Credentials) (now : Nat) (service : String)
    (channel_id : Option String) (min_validity : Nat) (cache_key : String)
    (st : AuthState) (refreshes : Nat) :
    Except String (Credentials × AuthState × Nat) :=
  match loadCredentials st service channel_id with
  | some c =>
    let r :=
      if needsPreemptiveRefreshForCreds c min_validity now then
        let p := refreshCredentials refreshFn st service channel_id c
        (p.1, p.2, refreshes + 1)
      else (c, st, refreshes)
    .ok (r.1, cacheAndExpiry r.2.1 cache_key r.1, r.2.2)
  | none =>
    match List.lookup service SCOPES with
    | none => .error ("Unknown service: " ++ service)
    | some scopes =>
      if scopes.isEmpty then .error ("Unknown service: " ++ service)
      else
        let st2 := saveCredentials st service channel_id authFn
        .ok (authFn, cacheAndExpiry st2 cache_key authFn, refreshes)

/-- PreemptiveAuthManager.get_credentials at time now. The third
component of the result counts the token refreshes performed. Note the
source has no return statement after the pre-emptive refresh branch, so
that branch falls through into the load-or-authorize tail. -/
def getCredentials (refreshFn : Credentials → Credentials)
    (authFn : Credentials) (now : Nat) (service : String)
    (channel_id : Option String) (min_validity_minutes : Option Nat)
    (st : AuthState) : Except String (Credentials × AuthState × Nat) :=
  let cache_key := service ++ ":" ++ channel_id.getD "default"
  let min_validity :=
    match min_validity_minutes with
    | some m => if m = 0 then PREEMPTIVE_REFRESH_MINUTES else m
    | none => PREEMPTIVE_REFRESH_MINUTES
  match st.credentials_cache cache_key with
  | some creds0 =>
    if needsPreemptiveRefresh st cache_key min_validity now then
      let p := refreshCredentials refreshFn st service channel_id creds0
      loadOrAuthorize refreshFn authFn now service channel_id min_validity
        cache_key (cacheAndExpiry p.2 cache_key p.1) 1
    else if creds0.valid now then .ok (creds0, st, 0)
    else if creds0.expired now && creds0.refresh_token.isSome then
      let p := refreshCredentials refreshFn st service channel_id creds0
      .ok (p.1, cacheAndExpiry p.2 cache_key p.1, 1)
    else
      loadOrAuthorize refreshFn authFn now service channel_id min_validity
        cache_key st 0
  | none =>
    loadOrAuthorize refreshFn authFn now service channel_id min_validity
      cache_key st 0

/-- Projection used to observe how many refreshes a get_credentials call
performed. -/
def refreshCountOf (r : Except String (Credentials × AuthState × Nat)) :
    Option Nat :=
  match r with
  | .ok (_, _, n) => some n
  | .error _ => none

/-- A concrete cached credential for the youtube service, expiring at
time 1100. -/
def cexCreds : Credentials :=
  { token := some "tok", refresh_token := some "ref", token_uri := some "uri",
    client_id := some "cid", client_secret := some "sec", scopes := some [],
    expiry := some 1100 }

/-- A concrete auth-manager state holding cexCreds in both in-memory
caches under the youtube default key, with an empty credential store. -/
def cexState : AuthState :=
  { credentials_cache := fun k =>
      if k = "youtube:default" then some cexCreds else none,
    token_expiry_cache := fun k =>
      if k = "youtube:default" then some 1100 else none,
    store := fun _ => none }

/-- A token endpoint that keeps returning a credential that expires at
time 1000, i.e. immediately. -/
def cexRefreshFn : Credentials → Credentials :=
  fun c => { c with expiry := some 1000 }

/-- A well-behaved token endpoint whose refreshed credential expires at
time 5000, far beyond the validity horizon. -/
def cexGoodRefreshFn : Credentials → Credentials :=
  fun c => { c with expiry := some 5000 }

/-- Proof artifact for claim C5: the state reached after k back-to-back
acquires that all succeeded, launched at t0 on a freshly initialised
limit. The minute window start always equals the current instant because
time only advances by the sleeps acquire itself performs, and s counts
the sleeps taken so far. -/
def dayRunInv (rpd rpm t0 k : Nat) (L : RateLimit) (now : Nat) : Prop :=
  L.requests_per_day = rpd ∧ L.requests_per_minute = rpm ∧
  L.current_day_count = k ∧ L.last_day_reset = t0 ∧
  L.last_minute_reset = now ∧ L.current_minute_count ≤ rpm ∧
  ∃ s, now = t0 + 60 * s ∧ s * rpm + L.current_minute_count = k

/-! ## Rate limiter lemmas -/

/-- Fields of RateLimit untouched by the lazy day roll. -/
lemma rollDay_fields (L : RateLimit) (now : Nat) :
    (rollDay L now).requests_per_day = L.requests_per_day ∧
    (rollDay L now).requests_per_minute = L.requests_per_minute ∧
    (rollDay L now).current_minute_count = L.current_minute_count ∧
    (rollDay L now).last_minute_reset = L.last_minute_reset := by
  unfold rollDay; split <;> simp

/-- Fields of RateLimit untouched by the lazy minute roll. -/
lemma rollMinute_fields (L : RateLimit) (now : Nat) :
    (rollMinute L now).requests_per_day = L.requests_per_day ∧
    (rollMinute L now).requests_per_minute = L.requests_per_minute ∧
    (rollMinute L now).current_day_count = L.current_day_count ∧
    (rollMinute L now).last_day_reset = L.last_day_reset := by
  unfold rollMinute; split <;> simp

/-- Claim C10: an API name absent from the configured table is admitted
immediately, with no sleep and no state change, and get_remaining reports
-1 for it. -/
theorem c10_unconfigured_api_passthrough (limits : List (String × RateLimit))
    (api : String) (now : Nat) (h : List.lookup api limits = none) :
    acquire limits api now = (.ok none, limits, now) ∧
    getRemaining limits api = -1 := by
  constructor
  · simp [acquire, h]
  · simp [getRemaining, h]

/-- Witness for claim C10 on the shipped API_LIMITS table and an API name
it does not contain. -/
theorem c10_witness :
    List.lookup "reddit" API_LIMITS = none ∧
    (acquire API_LIMITS "reddit" 5 = (.ok none, API_LIMITS, 5) ∧
     getRemaining API_LIMITS "reddit" = -1) :=
  ⟨by decide, c10_unconfigured_api_passthrough API_LIMITS "reddit" 5 (by decide)⟩

/-- Claim C7: whenever acquire returns successfully (with limits of at
least 1), the updated counts do not exceed their caps, and the remaining
daily budget reported by get_remaining is non-negative. -/
theorem c7_counts_bounded_on_success (L : RateLimit) (now : Nat)
    (sl : Option Int) (L' : RateLimit) (now' : Nat)
    (hd : 1 ≤ L.requests_per_day) (hm : 1 ≤ L.requests_per_minute)
    (h : acquireStep L now = (.ok sl, L', now')) :
    L'.current_day_count ≤ L'.requests_per_day ∧
    L'.current_minute_count ≤ L'.requests_per_minute ∧
    0 ≤ getRemainingOf L' := by
  have hM1 := rollDay_fields L now
  have hM2 := rollMinute_fields (rollDay L now) now
  unfold acquireStep at h
  dsimp only at h
  split at h
  · simp at h
  · split at h
    · simp only [Prod.mk.injEq] at h
      obtain ⟨-, hL, -⟩ := h
      subst hL
      rename_i hday _
      constructor
      · simp only []
        omega
      · constructor
        · simp only []
          omega
        · simp [getRemainingOf]
          omega
    · simp only [Prod.mk.injEq] at h
      obtain ⟨-, hL, -⟩ := h
      subst hL
      rename_i hday hmin
      refine ⟨by simp only []; omega, by simp only []; omega, ?_⟩
      simp [getRemainingOf]
      omega

/-- Witness for claim C7 at a small concrete limit. -/
theorem c7_witness :
    (1 ≤ (3 : Nat) ∧ 1 ≤ (2 : Nat) ∧
     acquireStep
         { requests_per_day := 3, requests_per_minute := 2,
           current_day_count := 1, current_minute_count := 1,
           last_day_reset := 50, last_minute_reset := 50 } 60 =
       (.ok none,
        { requests_per_day := 3, requests_per_minute := 2,
          current_day_count := 2, current_minute_count := 2,
          last_day_reset := 50, last_minute_reset := 50 }, 60)) ∧
    ({ requests_per_day := 3, requests_per_minute := 2,
       current_day_count := 2, current_minute_count := 2,
       last_day_reset := 50, last_minute_reset := 50 } : RateLimit).current_day_count ≤ 3 ∧
    ({ requests_per_day := 3, requests_per_minute := 2,
       current_day_count := 2, current_minute_count := 2,
       last_day_reset := 50, last_minute_reset := 50 } : RateLimit).current_minute_count ≤ 2 ∧
    0 ≤ getRemainingOf
      { requests_per_day := 3, requests_per_minute := 2,
        current_day_count := 2, current_minute_count := 2,
        last_day_reset := 50, last_minute_reset := 50 } :=
  ⟨⟨by decide, by decide, by decide⟩,
   c7_counts_bounded_on_success
     { requests_per_day := 3, requests_per_minute := 2,
       current_day_count := 1, current_minute_count := 1,
       last_day_reset := 50, last_minute_reset := 50 } 60 none
     { requests_per_day := 3, requests_per_minute := 2,
       current_day_count := 2, current_minute_count := 2,
       last_day_reset := 50, last_minute_reset := 50 } 60
     (by decide) (by decide) (by decide)⟩

/-- Claim C6: with the daily quota not exhausted and the minute count at
its cap inside the current minute window, acquire does not raise: it
sleeps exactly until the minute window rolls (a non-negative wait of at
most 60 seconds), resets the minute count to 1 (the reset to 0 plus this
acquisition) and the minute window start, increments the day count, and
returns successfully. -/
theorem c6_minute_cap_blocks_then_succeeds (L : RateLimit) (now : Nat)
    (hnoDayRoll : (now : Int) - (L.last_day_reset : Int) ≤ 86400)
    (hnoMinRoll : (now : Int) - (L.last_minute_reset : Int) ≤ 60)
    (hmono : L.last_minute_reset ≤ now)
    (hday : L.current_day_count < L.requests_per_day)
    (hmin : L.requests_per_minute ≤ L.current_minute_count) :
    acquireStep L now =
      (.ok (some ((L.last_minute_reset : Int) + 60 - (now : Int))),
       { L with current_day_count := L.current_day_count + 1,
                current_minute_count := 1,
                last_minute_reset :=
                  now + ((L.last_minute_reset : Int) + 60 - (now : Int)).toNat },
       now + ((L.last_minute_reset : Int) + 60 - (now : Int)).toNat) ∧
    0 ≤ (L.last_minute_reset : Int) + 60 - (now : Int) ∧
    (L.last_minute_reset : Int) + 60 - (now : Int) ≤ 60 := by
  have hd : rollDay L now = L := by
    unfold rollDay
    rw [if_neg]
    omega
  have hm : rollMinute L now = L := by
    unfold rollMinute
    rw [if_neg]
    omega
  refine ⟨?_, by omega, by omega⟩
  unfold acquireStep
  rw [hd, hm, if_neg (by omega), if_pos hmin]

/-- Witness for claim C6: minute cap 2 reached 30 seconds into the
window, so the call sleeps 30 seconds. -/
theorem c6_witness :
    ((130 : Int) - (100 : Int) ≤ 86400 ∧ (130 : Int) - (100 : Int) ≤ 60 ∧
     (100 : Nat) ≤ 130 ∧ (1 : Nat) < 5 ∧ (2 : Nat) ≤ 2) ∧
    (acquireStep
        { requests_per_day := 5, requests_per_minute := 2,
          current_day_count := 1, current_minute_count := 2,
          last_day_reset := 100, last_minute_reset := 100 } 130 =
      (.ok (some ((100 : Int) + 60 - (130 : Int))),
       { requests_per_day := 5, requests_per_minute := 2,
         current_day_count := 2, current_minute_count := 1,
         last_day_reset := 100,
         last_minute_reset := 130 + (((100 : Int) + 60 - (130 : Int)).toNat) },
       130 + (((100 : Int) + 60 - (130 : Int)).toNat)) ∧
     0 ≤ (100 : Int) + 60 - (130 : Int) ∧
     (100 : Int) + 60 - (130 : Int) ≤ 60) :=
  ⟨⟨by decide, by decide, by decide, by decide, by decide⟩,
   c6_minute_cap_blocks_then_succeeds
     { requests_per_day := 5, requests_per_minute := 2,
       current_day_count := 1, current_minute_count := 2,
       last_day_reset := 100, last_minute_reset := 100 } 130
     (by decide) (by decide) (by decide) (by decide) (by decide)⟩

lemma dayRunInv_no_roll (rpd rpm t0 k : Nat) (L : RateLimit) (now : Nat)
    (hrpm : 1 ≤ rpm) (hday : 60 * (rpd / rpm) ≤ 86400)
    (hk : k ≤ rpd) (hinv : dayRunInv rpd rpm t0 k L now) :
    rollDay L now = L ∧ rollMinute L now = L := by
  obtain ⟨h1, h2, h3, h4, h5, h6, s, hs1, hs2⟩ := hinv
  have hsk : s * rpm ≤ k := Nat.le.intro hs2
  have hsd : s ≤ rpd / rpm := (Nat.le_div_iff_mul_le hrpm).2 (le_trans hsk hk)
  have h60 : 60 * s ≤ 86400 := le_trans (Nat.mul_le_mul_left 60 hsd) hday
  constructor
  · unfold rollDay
    rw [if_neg]
    rw [h4, hs1]
    push_cast
    omega
  · unfold rollMinute
    rw [if_neg]
    rw [h5]
    omega

lemma acquireStep_ok_of_inv (rpd rpm t0 k : Nat) (L : RateLimit) (now : Nat)
    (hrpm : 1 ≤ rpm) (hday : 60 * (rpd / rpm) ≤ 86400)
    (hinv : dayRunInv rpd rpm t0 k L now) (hk : k < rpd) :
    ∃ sl L' now', acquireStep L now = (.ok sl, L', now') ∧
      dayRunInv rpd rpm t0 (k + 1) L' now' := by
  obtain ⟨hrd, hrm⟩ :=
    dayRunInv_no_roll rpd rpm t0 k L now hrpm hday (le_of_lt hk) hinv
  obtain ⟨h1, h2, h3, h4, h5, h6, s, hs1, hs2⟩ := hinv
  have hdaycheck : ¬ L.requests_per_day ≤ L.current_day_count := by
    rw [h1, h3]; omega
  by_cases hmc : L.requests_per_minute ≤ L.current_minute_count
  · have hmceq : L.current_minute_count = rpm := le_antisymm h6 (h2 ▸ hmc)
    have hw : ((L.last_minute_reset : Int) + 60 - (now : Int)).toNat = 60 := by
      rw [h5]; omega
    refine ⟨some ((L.last_minute_reset : Int) + 60 - (now : Int)),
      { requests_per_day := L.requests_per_day,
        requests_per_minute := L.requests_per_minute,
        current_day_count := L.current_day_count + 1,
        current_minute_count := 0 + 1,
        last_day_reset := L.last_day_reset,
        last_minute_reset :=
          now + ((L.last_minute_reset : Int) + 60 - (now : Int)).toNat },
      now + ((L.last_minute_reset : Int) + 60 - (now : Int)).toNat, ?_, ?_⟩
    · unfold acquireStep
      dsimp only
      rw [hrd, hrm, if_neg hdaycheck, if_pos hmc]
    · refine ⟨h1, h2, by rw [h3], h4, rfl, ?_, s + 1, ?_, ?_⟩
      · show 0 + 1 ≤ rpm
        omega
      · show now + ((L.last_minute_reset : Int) + 60 - (now : Int)).toNat =
          t0 + 60 * (s + 1)
        rw [hw, hs1]
        omega
      · show (s + 1) * rpm + (0 + 1) = k + 1
        have hs2' : s * rpm + rpm = k := by rw [hmceq] at hs2; exact hs2
        rw [Nat.succ_mul]
        omega
  · refine ⟨none,
      { requests_per_day := L.requests_per_day,
        requests_per_minute := L.requests_per_minute,
        current_day_count := L.current_day_count + 1,
        current_minute_count := L.current_minute_count + 1,
        last_day_reset := L.last_day_reset,
        last_minute_reset := L.last_minute_reset }, now, ?_, ?_⟩
    · unfold acquireStep
      dsimp only
      rw [hrd, hrm, if_neg hdaycheck, if_neg hmc]
    · refine ⟨h1, h2, by rw [h3], h4, h5, ?_, s, hs1, ?_⟩
      · show L.current_minute_count + 1 ≤ rpm
        rw [h2] at hmc
        omega
      · show s * rpm + (L.current_minute_count + 1) = k + 1
        omega

lemma acquireStep_exceeded_of_inv (rpd rpm t0 : Nat) (L : RateLimit) (now : Nat)
    (hrpm : 1 ≤ rpm) (hday : 60 * (rpd / rpm) ≤ 86400)
    (hinv : dayRunInv rpd rpm t0 rpd L now) :
    acquireStep L now = (.exceeded ((t0 : Int) + 86400 - (now : Int)), L, now) := by
  obtain ⟨hrd, hrm⟩ :=
    dayRunInv_no_roll rpd rpm t0 rpd L now hrpm hday le_rfl hinv
  obtain ⟨h1, h2, h3, h4, h5, h6, s, hs1, hs2⟩ := hinv
  have hdaycheck : L.requests_per_day ≤ L.current_day_count := by
    rw [h1, h3]
  unfold acquireStep
  dsimp only
  rw [hrd, hrm, if_pos hdaycheck, h4]

lemma runAcquires_inv (rpd rpm t0 : Nat) (L0 : RateLimit)
    (hrpm : 1 ≤ rpm) (hday : 60 * (rpd / rpm) ≤ 86400)
    (h0 : dayRunInv rpd rpm t0 0 L0 t0) :
    ∀ k, k ≤ rpd →
      (∀ o ∈ (runAcquires k L0 t0).1, ∃ sl, o = AcqOutcome.ok sl) ∧
      dayRunInv rpd rpm t0 k (runAcquires k L0 t0).2.1 (runAcquires k L0 t0).2.2 := by
  intro k
  induction k with
  | zero => intro _; exact ⟨by simp [runAcquires], h0⟩
  | succ k ih =>
    intro hk1
    obtain ⟨hall, hinv⟩ := ih (by omega)
    obtain ⟨sl, L', now', heq, hinv'⟩ :=
      acquireStep_ok_of_inv rpd rpm t0 k _ _ hrpm hday hinv (by omega)
    have hunf : runAcquires (k + 1) L0 t0 =
        ((runAcquires k L0 t0).1 ++ [AcqOutcome.ok sl], L', now') := by
      show ((runAcquires k L0 t0).1 ++
             [(acquireStep (runAcquires k L0 t0).2.1 (runAcquires k L0 t0).2.2).1],
            (acquireStep (runAcquires k L0 t0).2.1 (runAcquires k L0 t0).2.2).2.1,
            (acquireStep (runAcquires k L0 t0).2.1 (runAcquires k L0 t0).2.2).2.2) = _
      rw [heq]
    rw [hunf]
    constructor
    · intro o ho
      rcases List.mem_append.mp ho with h | h
      · exact hall o h
      · exact ⟨sl, by simpa using h⟩
    · exact hinv'

/-- The daily quota run, generically: starting from a freshly initialised
limit at t0, the first requests_per_day back-to-back acquires all return
successfully, after which the day count equals the cap and the next
acquire raises RateLimitExceeded carrying the time left to the daily
reset, without sleeping and without changing the state. The arithmetic
hypothesis bounds the total sleeping below 24 hours and holds for every
configured API. -/
lemma day_quota_run (L : RateLimit) (t0 : Nat)
    (hrpm : 1 ≤ L.requests_per_minute)
    (hday : 60 * (L.requests_per_day / L.requests_per_minute) ≤ 86400) :
    (∀ o ∈ (runAcquires L.requests_per_day (initLimit L t0) t0).1,
      ∃ sl, o = AcqOutcome.ok sl) ∧
    (runAcquires L.requests_per_day (initLimit L t0) t0).2.1.current_day_count =
      L.requests_per_day ∧
    acquireStep (runAcquires L.requests_per_day (initLimit L t0) t0).2.1
        (runAcquires L.requests_per_day (initLimit L t0) t0).2.2 =
      (.exceeded ((t0 : Int) + 86400 -
          ((runAcquires L.requests_per_day (initLimit L t0) t0).2.2 : Int)),
       (runAcquires L.requests_per_day (initLimit L t0) t0).2.1,
       (runAcquires L.requests_per_day (initLimit L t0) t0).2.2) := by
  have h0 : dayRunInv L.requests_per_day L.requests_per_minute t0 0
      (initLimit L t0) t0 :=
    ⟨rfl, rfl, rfl, rfl, rfl, by simp [initLimit], 0, by omega, by simp [initLimit]⟩
  obtain ⟨hall, hinv⟩ :=
    runAcquires_inv L.requests_per_day L.requests_per_minute t0 (initLimit L t0)
      hrpm hday h0 L.requests_per_day le_rfl
  refine ⟨hall, hinv.2.2.1, ?_⟩
  exact acquireStep_exceeded_of_inv L.requests_per_day L.requests_per_minute t0
    _ _ hrpm hday hinv

/-- Claim C5: for every API in the configured table, launching
requests_per_day plus one back-to-back acquires on its freshly
initialised limit makes the first requests_per_day succeed and the last
raise RateLimitExceeded, whose wait_seconds is the time remaining to the
daily reset (last_day_reset plus 24 hours minus now); the raising call
does not sleep and leaves the limit and the clock untouched. -/
theorem c5_daily_quota_exceeded (p : String × RateLimit)
    (hp : p ∈ API_LIMITS) (t0 : Nat) :
    (∀ o ∈ (runAcquires p.2.requests_per_day (initLimit p.2 t0) t0).1,
      ∃ sl, o = AcqOutcome.ok sl) ∧
    (runAcquires p.2.requests_per_day (initLimit p.2 t0) t0).2.1.current_day_count =
      p.2.requests_per_day ∧
    acquireStep (runAcquires p.2.requests_per_day (initLimit p.2 t0) t0).2.1
        (runAcquires p.2.requests_per_day (initLimit p.2 t0) t0).2.2 =
      (.exceeded ((t0 : Int) + 86400 -
          ((runAcquires p.2.requests_per_day (initLimit p.2 t0) t0).2.2 : Int)),
       (runAcquires p.2.requests_per_day (initLimit p.2 t0) t0).2.1,
       (runAcquires p.2.requests_per_day (initLimit p.2 t0) t0).2.2) := by
  simp only [API_LIMITS, List.mem_cons, List.not_mem_nil, or_false] at hp
  rcases hp with rfl | rfl | rfl | rfl | rfl <;>
    exact day_quota_run _ t0 (by decide) (by decide)

set_option maxRecDepth 4000 in
/-- Witness for claim C5 at the youtube_upload API (50 requests per day)
started at t0 equal to 0. -/
theorem c5_witness :
    ytUploadPair ∈ API_LIMITS ∧
    ((∀ o ∈ (runAcquires ytUploadPair.2.requests_per_day
          (initLimit ytUploadPair.2 0) 0).1, ∃ sl, o = AcqOutcome.ok sl) ∧
     (runAcquires ytUploadPair.2.requests_per_day
         (initLimit ytUploadPair.2 0) 0).2.1.current_day_count =
       ytUploadPair.2.requests_per_day ∧
     acquireStep (runAcquires ytUploadPair.2.requests_per_day
           (initLimit ytUploadPair.2 0) 0).2.1
         (runAcquires ytUploadPair.2.requests_per_day
           (initLimit ytUploadPair.2 0) 0).2.2 =
       (.exceeded (((0 : Nat) : Int) + 86400 -
           ((runAcquires ytUploadPair.2.requests_per_day
             (initLimit ytUploadPair.2 0) 0).2.2 : Int)),
        (runAcquires ytUploadPair.2.requests_per_day
          (initLimit ytUploadPair.2 0) 0).2.1,
        (runAcquires ytUploadPair.2.requests_per_day
          (initLimit ytUploadPair.2 0) 0).2.2)) :=
  ⟨by decide, c5_daily_quota_exceeded ytUploadPair (by decide) 0⟩

/-! ## Circuit breaker lemmas -/

lemma call_closed (cfg : CircuitBreakerConfig) (now : Nat) (ok : Bool)
    (s : CircuitBreakerState) (hs : s.state = .closed) :
    call cfg now ok s = execOp cfg now ok s := by
  simp [call, hs]

lemma call_halfOpen_reject (cfg : CircuitBreakerConfig) (now : Nat) (ok : Bool)
    (s : CircuitBreakerState) (hs : s.state = .halfOpen)
    (hfull : cfg.half_open_max_requests ≤ s.half_open_request_count) :
    call cfg now ok s = (.rejected, s) := by
  simp [call, hs, hfull]

lemma call_halfOpen_admitted (cfg : CircuitBreakerConfig) (now : Nat) (ok : Bool)
    (s : CircuitBreakerState) (hs : s.state = .halfOpen)
    (hroom : s.half_open_request_count < cfg.half_open_max_requests) :
    call cfg now ok s =
      execOp cfg now ok
        { s with half_open_request_count := s.half_open_request_count + 1 } := by
  simp [call, hs, Nat.not_le.mpr hroom]

lemma call_open_reject (cfg : CircuitBreakerConfig) (now : Nat) (ok : Bool)
    (s : CircuitBreakerState) (hs : s.state = .opened) (tf : Nat)
    (htf : s.last_failure_time = some tf)
    (hlt : (now : Int) - (tf : Int) < (cfg.recovery_timeout : Int)) :
    call cfg now ok s = (.rejected, s) := by
  have hrec : shouldAttemptRecovery cfg now s = false := by
    simp [shouldAttemptRecovery, hs, htf, Int.not_le.mpr hlt]
  simp [call, hs, hrec]

lemma call_open_recover (cfg : CircuitBreakerConfig) (now : Nat) (ok : Bool)
    (s : CircuitBreakerState) (hs : s.state = .opened) (tf : Nat)
    (htf : s.last_failure_time = some tf)
    (hle : (cfg.recovery_timeout : Int) ≤ (now : Int) - (tf : Int))
    (hmax : 1 ≤ cfg.half_open_max_requests) :
    call cfg now ok s =
      execOp cfg now ok
        { s with state := .halfOpen, success_count := 0,
                 half_open_request_count := 1 } := by
  have hrec : shouldAttemptRecovery cfg now s = true := by
    simp [shouldAttemptRecovery, hs, htf, hle]
  simp [call, hs, hrec, transitionToHalfOpen, Nat.not_le.mpr hmax]

lemma iterCalls_fixed (cfg : CircuitBreakerConfig) (s : CircuitBreakerState)
    (l : List (Nat × Bool))
    (h : ∀ q ∈ l, call cfg q.1 q.2 s = (.rejected, s)) :
    iterCalls cfg l s = s := by
  induction l with
  | nil => rfl
  | cons q l ih =>
    have hq := h q (List.mem_cons_self q l)
    have := ih (fun p hp => h p (List.mem_cons_of_mem q hp))
    simpa [iterCalls, hq] using this

lemma callsAfterFailures_closed (cfg : CircuitBreakerConfig) (t : Nat) :
    ∀ k, k < cfg.failure_threshold →
      callsAfterFailures cfg t k =
        { state := .closed, failure_count := k, success_count := 0,
          last_failure_time := if k = 0 then none else some t,
          half_open_request_count := 0 } := by
  intro k
  induction k with
  | zero => intro _; rfl
  | succ k ih =>
    intro hk
    have hk' : k < cfg.failure_threshold := Nat.lt_of_succ_lt hk
    have hprev := ih hk'
    have hstep :
        call cfg t false (callsAfterFailures cfg t k) =
          execOp cfg t false (callsAfterFailures cfg t k) :=
      call_closed cfg t false _ (by rw [hprev])
    show (call cfg t false (callsAfterFailures cfg t k)).2 = _
    rw [hstep, hprev]
    simp [execOp, recordFailure, Nat.not_le.mpr hk]

lemma callsAfterFailures_opened (cfg : CircuitBreakerConfig) (t : Nat)
    (hft : 1 ≤ cfg.failure_threshold) (hrt : 1 ≤ cfg.recovery_timeout) :
    ∀ m, callsAfterFailures cfg t (cfg.failure_threshold + m) =
      { state := .opened, failure_count := cfg.failure_threshold,
        success_count := 0, last_failure_time := some t,
        half_open_request_count := 0 } := by
  intro m
  induction m with
  | zero =>
    obtain ⟨f, hf⟩ : ∃ f, cfg.failure_threshold = f + 1 :=
      ⟨cfg.failure_threshold - 1, (Nat.succ_pred_eq_of_pos hft).symm⟩
    have hprev := callsAfterFailures_closed cfg t f (by omega)
    have hstep :
        call cfg t false (callsAfterFailures cfg t f) =
          execOp cfg t false (callsAfterFailures cfg t f) :=
      call_closed cfg t false _ (by rw [hprev])
    have : callsAfterFailures cfg t (cfg.failure_threshold + 0) =
        (call cfg t false (callsAfterFailures cfg t f)).2 := by
      rw [Nat.add_zero, hf]; rfl
    rw [this, hstep, hprev]
    simp [execOp, recordFailure, transitionToOpen, hf]
  | succ m ih =>
    have hreject :
        call cfg t false (callsAfterFailures cfg t (cfg.failure_threshold + m)) =
          (.rejected, callsAfterFailures cfg t (cfg.failure_threshold + m)) := by
      refine call_open_reject cfg t false _ (by rw [ih]) t (by rw [ih]) ?_
      have : ((t : Int) - (t : Int)) = 0 := by ring
      omega
    show (call cfg t false (callsAfterFailures cfg t (cfg.failure_threshold + m))).2 = _
    rw [hreject, ih]

/-- Claim C2: at least failure_threshold consecutive operation failures on
a fresh CLOSED breaker drive it to OPEN with last_failure_time recorded,
and every later call issued before recovery_timeout seconds have elapsed
since last_failure_time returns the downgraded rejection with the state
unchanged, whatever the wrapped operation would have done (it is not
invoked); consequently any sequence of such early calls leaves the
breaker identical. -/
theorem c2_threshold_failures_open_then_reject (cfg : CircuitBreakerConfig)
    (t n : Nat) (hft : 1 ≤ cfg.failure_threshold)
    (hrt : 1 ≤ cfg.recovery_timeout) (hn : cfg.failure_threshold ≤ n) :
    (callsAfterFailures cfg t n).state = .opened ∧
    (callsAfterFailures cfg t n).last_failure_time = some t ∧
    (∀ (now : Nat) (ok : Bool), (now : Int) - (t : Int) < (cfg.recovery_timeout : Int) →
      call cfg now ok (callsAfterFailures cfg t n) =
        (.rejected, callsAfterFailures cfg t n)) ∧
    (∀ l : List (Nat × Bool),
      (∀ q ∈ l, (q.1 : Int) - (t : Int) < (cfg.recovery_timeout : Int)) →
      iterCalls cfg l (callsAfterFailures cfg t n) = callsAfterFailures cfg t n) := by
  obtain ⟨m, hm⟩ : ∃ m, n = cfg.failure_threshold + m :=
    ⟨n - cfg.failure_threshold, by omega⟩
  subst hm
  have hS := callsAfterFailures_opened cfg t hft hrt m
  have hreject : ∀ (now : Nat) (ok : Bool), (now : Int) - (t : Int) < (cfg.recovery_timeout : Int) →
      call cfg now ok (callsAfterFailures cfg t (cfg.failure_threshold + m)) =
        (.rejected, callsAfterFailures cfg t (cfg.failure_threshold + m)) := by
    intro now ok hlt
    exact call_open_reject cfg now ok _ (by rw [hS]) t (by rw [hS]) hlt
  refine ⟨by rw [hS], by rw [hS], hreject, ?_⟩
  intro l hl
  exact iterCalls_fixed cfg _ l (fun q hq => hreject q.1 q.2 (hl q hq))

/-- Claim C3: on an OPEN breaker whose recovery timeout has elapsed, the
next call transitions to HALF_OPEN and is admitted as the first probe; a
HALF_OPEN call below the probe budget is admitted and consumes one probe
slot; a HALF_OPEN call at or above the budget is rejected as downgraded
without consuming a slot or invoking the operation; a failing admitted
HALF_OPEN call re-raises the failure and moves the breaker back to OPEN
with the probe counter reset to 0 and last_failure_time refreshed. -/
theorem c3_half_open_probe_budget (cfg : CircuitBreakerConfig) :
    (∀ (s : CircuitBreakerState) (tf now : Nat) (ok : Bool),
      s.state = .opened → s.last_failure_time = some tf →
      (cfg.recovery_timeout : Int) ≤ (now : Int) - (tf : Int) →
      1 ≤ cfg.half_open_max_requests →
      call cfg now ok s =
        execOp cfg now ok
          { s with state := .halfOpen, success_count := 0,
                   half_open_request_count := 1 }) ∧
    (∀ (s : CircuitBreakerState) (now : Nat) (ok : Bool),
      s.state = .halfOpen →
      s.half_open_request_count < cfg.half_open_max_requests →
      call cfg now ok s =
        execOp cfg now ok
          { s with half_open_request_count := s.half_open_request_count + 1 }) ∧
    (∀ (s : CircuitBreakerState) (now : Nat) (ok : Bool),
      s.state = .halfOpen →
      cfg.half_open_max_requests ≤ s.half_open_request_count →
      call cfg now ok s = (.rejected, s)) ∧
    (∀ (s : CircuitBreakerState) (now : Nat),
      s.state = .halfOpen →
      s.half_open_request_count < cfg.half_open_max_requests →
      (call cfg now false s).1 = .failed ∧
      (call cfg now false s).2.state = .opened ∧
      (call cfg now false s).2.half_open_request_count = 0 ∧
      (call cfg now false s).2.last_failure_time = some now) := by
  refine ⟨?_, ?_, ?_, ?_⟩
  · intro s tf now ok hs htf hle hmax
    exact call_open_recover cfg now ok s hs tf htf hle hmax
  · intro s now ok hs hroom
    exact call_halfOpen_admitted cfg now ok s hs hroom
  · intro s now ok hs hfull
    exact call_halfOpen_reject cfg now ok s hs hfull
  · intro s now hs hroom
    rw [call_halfOpen_admitted cfg now false s hs hroom]
    simp [execOp, recordFailure, transitionToOpen, hs]

/-- Witness for claim C3 at the default config. -/
theorem c3_witness :
    ((⟨.opened, 5, 0, some 0, 0⟩ : CircuitBreakerState).state = .opened ∧
     (300 : Int) ≤ (300 : Int) - (0 : Int) ∧
     1 ≤ ({} : CircuitBreakerConfig).half_open_max_requests ∧
     (1 : Nat) < ({} : CircuitBreakerConfig).half_open_max_requests ∧
     ({} : CircuitBreakerConfig).half_open_max_requests ≤ 3) ∧
    (call {} 300 true ⟨.opened, 5, 0, some 0, 0⟩ =
      execOp {} 300 true ⟨.halfOpen, 5, 0, some 0, 1⟩) ∧
    (call {} 301 true ⟨.halfOpen, 0, 1, some 0, 1⟩ =
      execOp {} 301 true ⟨.halfOpen, 0, 1, some 0, 2⟩) ∧
    (call {} 302 false ⟨.halfOpen, 0, 2, some 0, 3⟩ =
      (.rejected, ⟨.halfOpen, 0, 2, some 0, 3⟩)) ∧
    ((call {} 303 false ⟨.halfOpen, 0, 1, some 0, 1⟩).1 = .failed ∧
     (call {} 303 false ⟨.halfOpen, 0, 1, some 0, 1⟩).2.state = .opened ∧
     (call {} 303 false ⟨.halfOpen, 0, 1, some 0, 1⟩).2.half_open_request_count = 0 ∧
     (call {} 303 false ⟨.halfOpen, 0, 1, some 0, 1⟩).2.last_failure_time = some 303) :=
  ⟨⟨rfl, by decide, by decide, by decide, by decide⟩,
   (c3_half_open_probe_budget {}).1 ⟨.opened, 5, 0, some 0, 0⟩ 0 300 true rfl rfl
     (by decide) (by decide),
   (c3_half_open_probe_budget {}).2.1 ⟨.halfOpen, 0, 1, some 0, 1⟩ 301 true rfl
     (by decide),
   (c3_half_open_probe_budget {}).2.2.1 ⟨.halfOpen, 0, 2, some 0, 3⟩ 302 false rfl
     (by decide),
   (c3_half_open_probe_budget {}).2.2.2 ⟨.halfOpen, 0, 1, some 0, 1⟩ 303 rfl
     (by decide)⟩

lemma recordSuccesses_to_closed (cfg : CircuitBreakerConfig) :
    ∀ (m : Nat) (s : CircuitBreakerState), s.state = .halfOpen →
      s.success_count + m = cfg.success_threshold → 1 ≤ m →
      recordSuccesses cfg m s =
        { state := .closed, failure_count := 0, success_count := 0,
          last_failure_time := s.last_failure_time,
          half_open_request_count := 0 } := by
  intro m
  induction m with
  | zero => intro s _ _ h; exact absurd h (by decide)
  | succ m ih =>
    intro s hs hsum _
    by_cases hm : m = 0
    · subst hm
      show recordSuccesses cfg 0 (recordSuccess cfg s) = _
      have hclose : cfg.success_threshold ≤ s.success_count + 1 := by omega
      simp [recordSuccesses, recordSuccess, hs, hclose, transitionToClosed]
    · have hm1 : 1 ≤ m := Nat.one_le_iff_ne_zero.mpr hm
      have hlt : s.success_count + 1 < cfg.success_threshold := by omega
      have hstep : recordSuccess cfg s =
          { s with failure_count := 0, success_count := s.success_count + 1 } := by
        simp [recordSuccess, hs, Nat.not_le.mpr hlt]
      show recordSuccesses cfg m (recordSuccess cfg s) = _
      rw [hstep]
      exact ih { s with failure_count := 0, success_count := s.success_count + 1 }
        hs (by simpa using by omega) hm1

/-- Claim C4: from any HALF_OPEN breaker state with a zeroed success
counter, success_threshold consecutive recorded operation successes close
the breaker, with failure_count, success_count and the half-open probe
counter all reset to 0. -/
theorem c4_consecutive_successes_close (cfg : CircuitBreakerConfig)
    (s : CircuitBreakerState) (hs : s.state = .halfOpen)
    (hsc : s.success_count = 0) (hk : 1 ≤ cfg.success_threshold) :
    recordSuccesses cfg cfg.success_threshold s =
      { state := .closed, failure_count := 0, success_count := 0,
        last_failure_time := s.last_failure_time,
        half_open_request_count := 0 } :=
  recordSuccesses_to_closed cfg cfg.success_threshold s hs (by omega) hk

/-- Witness for claim C4 at the default config (success threshold 2). -/
theorem c4_witness :
    ((⟨.halfOpen, 4, 0, some 9, 2⟩ : CircuitBreakerState).state = .halfOpen ∧
     (⟨.halfOpen, 4, 0, some 9, 2⟩ : CircuitBreakerState).success_count = 0 ∧
     1 ≤ ({} : CircuitBreakerConfig).success_threshold) ∧
    recordSuccesses {} ({} : CircuitBreakerConfig).success_threshold
        ⟨.halfOpen, 4, 0, some 9, 2⟩ =
      { state := .closed, failure_count := 0, success_count := 0,
        last_failure_time := some 9, half_open_request_count := 0 } :=
  ⟨⟨rfl, rfl, by decide⟩,
   c4_consecutive_successes_close {} ⟨.halfOpen, 4, 0, some 9, 2⟩ rfl rfl (by decide)⟩

lemma succCallsAt_halfOpen (cfg : CircuitBreakerConfig) (t : Nat) :
    ∀ (n : Nat) (s : CircuitBreakerState), s.state = .halfOpen →
      s.half_open_request_count + n ≤ cfg.half_open_max_requests →
      s.success_count + n < cfg.success_threshold →
      (succCallsAt cfg t n s).state = .halfOpen ∧
      (succCallsAt cfg t n s).half_open_request_count =
        s.half_open_request_count + n ∧
      (succCallsAt cfg t n s).success_count = s.success_count + n := by
  intro n
  induction n with
  | zero => intro s hs _ _; exact ⟨hs, by simp [succCallsAt], by simp [succCallsAt]⟩
  | succ n ih =>
    intro s hs hp hsc
    have hroom : s.half_open_request_count < cfg.half_open_max_requests := by omega
    have hstay : ¬ cfg.success_threshold ≤ s.success_count + 1 := by omega
    have hstep : (call cfg t true s).2 =
        { s with failure_count := 0, success_count := s.success_count + 1,
                 half_open_request_count := s.half_open_request_count + 1 } := by
      rw [call_halfOpen_admitted cfg t true s hs hroom]
      simp [execOp, recordSuccess, hs, hstay]
    have hrec : succCallsAt cfg t (n + 1) s =
        succCallsAt cfg t n ((call cfg t true s).2) := rfl
    rw [hrec, hstep]
    have := ih { s with failure_count := 0, success_count := s.success_count + 1,
                        half_open_request_count := s.half_open_request_count + 1 }
      hs (by simpa using by omega) (by simpa using by omega)
    refine ⟨this.1, ?_, ?_⟩
    · rw [this.2.1]
      show s.half_open_request_count + 1 + n = s.half_open_request_count + (n + 1)
      omega
    · rw [this.2.2]
      show s.success_count + 1 + n = s.success_count + (n + 1)
      omega

/-- Claim C9: with a config whose half-open probe budget is smaller than
the success threshold (such as the youtube_upload breaker), a freshly
HALF_OPEN breaker whose whole probe budget is consumed by successful
calls is stuck: it stays HALF_OPEN with the budget exhausted, and every
further call, at any time and whatever the operation would do, is
rejected as downgraded with the state unchanged, so no sequence of calls
ever closes it. -/
theorem c9_half_open_budget_starves_close (cfg : CircuitBreakerConfig)
    (s0 : CircuitBreakerState) (t : Nat)
    (hlt : cfg.half_open_max_requests < cfg.success_threshold)
    (hs : s0.state = .halfOpen) (hsc : s0.success_count = 0)
    (hpc : s0.half_open_request_count = 0) :
    (succCallsAt cfg t cfg.half_open_max_requests s0).state = .halfOpen ∧
    (succCallsAt cfg t cfg.half_open_max_requests s0).half_open_request_count =
      cfg.half_open_max_requests ∧
    (∀ (now : Nat) (ok : Bool),
      call cfg now ok (succCallsAt cfg t cfg.half_open_max_requests s0) =
        (.rejected, succCallsAt cfg t cfg.half_open_max_requests s0)) ∧
    (∀ l : List (Nat × Bool),
      iterCalls cfg l (succCallsAt cfg t cfg.half_open_max_requests s0) =
        succCallsAt cfg t cfg.half_open_max_requests s0) := by
  have hrun := succCallsAt_halfOpen cfg t cfg.half_open_max_requests s0 hs
    (by omega) (by omega)
  have hfull : cfg.half_open_max_requests ≤
      (succCallsAt cfg t cfg.half_open_max_requests s0).half_open_request_count := by
    rw [hrun.2.1, hpc]; omega
  have hreject : ∀ (now : Nat) (ok : Bool),
      call cfg now ok (succCallsAt cfg t cfg.half_open_max_requests s0) =
        (.rejected, succCallsAt cfg t cfg.half_open_max_requests s0) :=
    fun now ok => call_halfOpen_reject cfg now ok _ hrun.1 hfull
  refine ⟨hrun.1, by rw [hrun.2.1, hpc]; omega, hreject, ?_⟩
  intro l
  exact iterCalls_fixed cfg _ l (fun q _ => hreject q.1 q.2)

/-- Witness for claim C9 at the youtube_upload breaker config, whose
probe budget 1 is below the default success threshold 2. -/
theorem c9_witness :
    (List.lookup "youtube_upload" BREAKER_CONFIGS = some ytUploadConfig ∧
     ytUploadConfig.half_open_max_requests < ytUploadConfig.success_threshold) ∧
    ((succCallsAt ytUploadConfig 700 1 ⟨.halfOpen, 0, 0, some 0, 0⟩).state =
      .halfOpen ∧
     (∀ (now : Nat) (ok : Bool),
       call ytUploadConfig now ok
           (succCallsAt ytUploadConfig 700 1 ⟨.halfOpen, 0, 0, some 0, 0⟩) =
         (.rejected,
          succCallsAt ytUploadConfig 700 1 ⟨.halfOpen, 0, 0, some 0, 0⟩)) ∧
     (∀ l : List (Nat × Bool),
       iterCalls ytUploadConfig l
           (succCallsAt ytUploadConfig 700 1 ⟨.halfOpen, 0, 0, some 0, 0⟩) =
         succCallsAt ytUploadConfig 700 1 ⟨.halfOpen, 0, 0, some 0, 0⟩)) := by
  have h := c9_half_open_budget_starves_close ytUploadConfig
    ⟨.halfOpen, 0, 0, some 0, 0⟩ 700 (by decide) rfl rfl rfl
  exact ⟨⟨by decide, by decide⟩, h.1, h.2.2.1, h.2.2.2⟩

/-- Witness for claim C2 at the default config, failure time 7, six
failing calls. -/
theorem c2_witness :
    (1 ≤ ({} : CircuitBreakerConfig).failure_threshold ∧
     1 ≤ ({} : CircuitBreakerConfig).recovery_timeout ∧
     ({} : CircuitBreakerConfig).failure_threshold ≤ 6) ∧
    ((callsAfterFailures {} 7 6).state = .opened ∧
     (callsAfterFailures {} 7 6).last_failure_time = some 7 ∧
     (∀ (now : Nat) (ok : Bool), (now : Int) - (7 : Int) < (({} : CircuitBreakerConfig).recovery_timeout : Int) →
       call {} now ok (callsAfterFailures {} 7 6) =
         (.rejected, callsAfterFailures {} 7 6)) ∧
     (∀ l : List (Nat × Bool),
       (∀ q ∈ l, (q.1 : Int) - (7 : Int) < (({} : CircuitBreakerConfig).recovery_timeout : Int)) →
       iterCalls {} l (callsAfterFailures {} 7 6) = callsAfterFailures {} 7 6)) :=
  ⟨⟨by decide, by decide, by decide⟩,
   c2_threshold_failures_open_then_reject {} 7 6 (by decide) (by decide) (by decide)⟩



/-! ## Auth manager lemmas -/

/-- cacheAndExpiry never touches the durable store. -/
lemma cacheAndExpiry_store (st : AuthState) (k : String) (c : Credentials) :
    (cacheAndExpiry st k c).store = st.store := by
  unfold cacheAndExpiry updateExpiryCache
  cases hx : c.expiry <;> simp [hx]

/-- A credential whose scopes field is an actual list survives the
save-then-load round trip unchanged. -/
lemma loadData_saveData (c : Credentials) (l : List String)
    (h : c.scopes = some l) : loadData (saveData c) = c := by
  cases c
  simp only [Credentials.mk.injEq] at h ⊢
  simp_all [loadData, saveData]

/-- Claim C8: a token record written by the save operation, loaded and
immediately saved again unchanged, yields the identical record: same
token, refresh_token, token_uri, client_id, client_secret, scopes and
expiry (timestamps being modelled at full precision). -/
theorem c8_persisted_record_roundtrip (c : Credentials) :
    saveData (loadData (saveData c)) = saveData c := by
  cases h : c.scopes <;> simp [saveData, loadData, h]

/-- Counterexample to claim C1 as stated: the cached-credential
pre-emptive branch holds (cached credential present, cached expiry 1100
within the 30-minute horizon of now equal to 1000), yet the call performs
two token refreshes, not exactly one, because get_credentials falls
through to the load path after the pre-emptive refresh and the freshly
persisted credential still sits inside the validity horizon when the
token endpoint returns a token expiring immediately. -/
theorem c1_counterexample :
    (cexState.credentials_cache "youtube:default").isSome = true ∧
    needsPreemptiveRefresh cexState "youtube:default" 30 1000 = true ∧
    refreshCountOf
        (getCredentials cexRefreshFn {} 1000 "youtube" none (some 30) cexState) =
      some 2 := by
  refine ⟨rfl, rfl, ?_⟩
  rfl

/-- Claim C1 amended: when an in-memory cached credential exists for the
key, its cached expiry is within min_validity_minutes of now, and the
token endpoint returns a credential carrying a scopes list and an expiry
at least min_validity_minutes beyond now, the call performs exactly one
token refresh, persists the refreshed credential, stores it in both the
credential cache and the expiry cache, and returns it. (As written the
claim omits the freshness condition on the refreshed credential; the
counterexample shows a second refresh otherwise, since the source falls
through to the load path after the pre-emptive refresh.) -/
theorem c1_preemptive_refresh_amended
    (refreshFn : Credentials → Credentials) (authFn : Credentials)
    (now : Nat) (service : String) (channel_id : Option String) (mv : Nat)
    (st : AuthState) (c0 : Credentials) (e e2 : Nat) (l : List String)
    (hmv : 1 ≤ mv)
    (hc : st.credentials_cache (service ++ ":" ++ channel_id.getD "default") =
      some c0)
    (he : st.token_expiry_cache (service ++ ":" ++ channel_id.getD "default") =
      some e)
    (hwithin : (e : Int) - (now : Int) < (mv : Int) * 60)
    (hexp : (refreshFn c0).expiry = some e2)
    (hfresh : (mv : Int) * 60 ≤ (e2 : Int) - (now : Int))
    (hscopes : (refreshFn c0).scopes = some l) :
    ∃ stF : AuthState,
      getCredentials refreshFn authFn now service channel_id (some mv) st =
        .ok (refreshFn c0, stF, 1) ∧
      stF.credentials_cache (service ++ ":" ++ channel_id.getD "default") =
        some (refreshFn c0) ∧
      stF.token_expiry_cache (service ++ ":" ++ channel_id.getD "default") =
        some e2 ∧
      stF.store (tokenFilePath service channel_id) =
        some (saveData (refreshFn c0)) := by
  have hmv0 : ¬ mv = 0 := by omega
  have hneeds : needsPreemptiveRefresh st
      (service ++ ":" ++ channel_id.getD "default") mv now = true := by
    unfold needsPreemptiveRefresh
    rw [he]
    simpa using hwithin
  have hstore2 : (cacheAndExpiry
      (saveCredentials st service channel_id (refreshFn c0))
      (service ++ ":" ++ channel_id.getD "default") (refreshFn c0)).store
        (tokenFilePath service channel_id) = some (saveData (refreshFn c0)) := by
    unfold cacheAndExpiry updateExpiryCache saveCredentials
    rw [hexp]
    simp
  have hload : loadCredentials (cacheAndExpiry
      (saveCredentials st service channel_id (refreshFn c0))
      (service ++ ":" ++ channel_id.getD "default") (refreshFn c0))
        service channel_id = some (refreshFn c0) := by
    unfold loadCredentials
    rw [hstore2]
    simp [loadData_saveData (refreshFn c0) l hscopes]
  have hnofresh : needsPreemptiveRefreshForCreds (refreshFn c0) mv now = false := by
    unfold needsPreemptiveRefreshForCreds
    rw [hexp]
    simpa using hfresh
  refine ⟨cacheAndExpiry (cacheAndExpiry
      (saveCredentials st service channel_id (refreshFn c0))
      (service ++ ":" ++ channel_id.getD "default") (refreshFn c0))
      (service ++ ":" ++ channel_id.getD "default") (refreshFn c0),
    ?_, ?_, ?_, ?_⟩
  · unfold getCredentials refreshCredentials
    dsimp only
    rw [hc]
    simp only [hmv0, if_false, hneeds, if_true]
    unfold loadOrAuthorize
    rw [hload]
    simp only [hnofresh, Bool.false_eq_true, if_false]
  · unfold cacheAndExpiry updateExpiryCache
    rw [hexp]
    simp
  · unfold cacheAndExpiry updateExpiryCache
    rw [hexp]
    simp
  · rw [cacheAndExpiry_store]
    exact hstore2

/-- Witness for the amended claim C1: the youtube default key with a
cached credential expiring at 1100, queried at time 1000 with a
30-minute horizon, against a token endpoint returning expiry 5000. -/
theorem c1_witness :
    (1 ≤ (30 : Nat) ∧
     cexState.credentials_cache
         ("youtube" ++ ":" ++ (none : Option String).getD "default") =
       some cexCreds ∧
     cexState.token_expiry_cache
         ("youtube" ++ ":" ++ (none : Option String).getD "default") =
       some 1100 ∧
     ((1100 : Nat) : Int) - ((1000 : Nat) : Int) < ((30 : Nat) : Int) * 60 ∧
     (cexGoodRefreshFn cexCreds).expiry = some 5000 ∧
     ((30 : Nat) : Int) * 60 ≤ ((5000 : Nat) : Int) - ((1000 : Nat) : Int) ∧
     (cexGoodRefreshFn cexCreds).scopes = some []) ∧
    (∃ stF : AuthState,
      getCredentials cexGoodRefreshFn {} 1000 "youtube" none (some 30) cexState =
        .ok (cexGoodRefreshFn cexCreds, stF, 1) ∧
      stF.credentials_cache
          ("youtube" ++ ":" ++ (none : Option String).getD "default") =
        some (cexGoodRefreshFn cexCreds) ∧
      stF.token_expiry_cache
          ("youtube" ++ ":" ++ (none : Option String).getD "default") =
        some 5000 ∧
      stF.store (tokenFilePath "youtube" none) =
        some (saveData (cexGoodRefreshFn cexCreds))) :=
  ⟨⟨by decide, by decide, by decide, by decide, by decide, by decide, by decide⟩,
   c1_preemptive_refresh_amended cexGoodRefreshFn {} 1000 "youtube" none 30
     cexState cexCreds 1100 5000 [] (by decide) (by decide) (by decide)
     (by decide) (by decide) (by decide) (by decide)⟩
